import Mathlib

/-!
Verification development for the Flask backend in `app.py` of the
Accreditation-AI-Framework repository.

The development shallowly embeds the request handlers that the claims are
about:

* `/api/generate-recommendations` (`generate_recommendations`): grouping of
  assessment results by category, prompt construction, and the response
  validator applied to the text returned by the LLM;
* `/api/generate-pdf` (`generate_pdf`) and `/api/share-report`
  (`share_report`): the HTML report assembler (header substitution and
  content region);
* `/api/generate-report` (`generate_report`): the Section A substitution of
  `institution_info` fields into the prompt.

JSON values produced by Python's `json.loads` are modelled by the inductive
type `JsonValue`; Python dicts keep insertion order, so objects are modelled
as association lists (keys unique after parsing).  Exceptions are modelled
with `Except`; an exception that escapes a handler (is not caught by any
`try` in the handler) is a distinct outcome from a JSON error reply.
-/

/-- A parsed JSON value (the result of a successful `json.loads`).
Python numbers are irrelevant to every property proved here beyond their
identity, so they are modelled as integers. -/
inductive JsonValue where
  | null : JsonValue
  | bool (b : Bool) : JsonValue
  | num (n : Int) : JsonValue
  | str (s : String) : JsonValue
  | arr (elems : List JsonValue) : JsonValue
  | obj (fields : List (String × JsonValue)) : JsonValue

mutual

/-- Decidable equality for `JsonValue` (written by hand: the automatic
derivation does not support this nested inductive). -/
def JsonValue.decEq : (a b : JsonValue) → Decidable (a = b)
  | .null, .null => isTrue rfl
  | .bool a, .bool b =>
    match Bool.decEq a b with
    | isTrue h => isTrue (by rw [h])
    | isFalse h => isFalse (fun he => h (by cases he; rfl))
  | .num a, .num b =>
    match Int.decEq a b with
    | isTrue h => isTrue (by rw [h])
    | isFalse h => isFalse (fun he => h (by cases he; rfl))
  | .str a, .str b =>
    match String.decEq a b with
    | isTrue h => isTrue (by rw [h])
    | isFalse h => isFalse (fun he => h (by cases he; rfl))
  | .arr xs, .arr ys =>
    match JsonValue.decEqElems xs ys with
    | isTrue h => isTrue (by rw [h])
    | isFalse h => isFalse (fun he => h (by cases he; rfl))
  | .obj xs, .obj ys =>
    match JsonValue.decEqFields xs ys with
    | isTrue h => isTrue (by rw [h])
    | isFalse h => isFalse (fun he => h (by cases he; rfl))
  | .null, .bool _ => isFalse nofun
  | .null, .num _ => isFalse nofun
  | .null, .str _ => isFalse nofun
  | .null, .arr _ => isFalse nofun
  | .null, .obj _ => isFalse nofun
  | .bool _, .null => isFalse nofun
  | .bool _, .num _ => isFalse nofun
  | .bool _, .str _ => isFalse nofun
  | .bool _, .arr _ => isFalse nofun
  | .bool _, .obj _ => isFalse nofun
  | .num _, .null => isFalse nofun
  | .num _, .bool _ => isFalse nofun
  | .num _, .str _ => isFalse nofun
  | .num _, .arr _ => isFalse nofun
  | .num _, .obj _ => isFalse nofun
  | .str _, .null => isFalse nofun
  | .str _, .bool _ => isFalse nofun
  | .str _, .num _ => isFalse nofun
  | .str _, .arr _ => isFalse nofun
  | .str _, .obj _ => isFalse nofun
  | .arr _, .null => isFalse nofun
  | .arr _, .bool _ => isFalse nofun
  | .arr _, .num _ => isFalse nofun
  | .arr _, .str _ => isFalse nofun
  | .arr _, .obj _ => isFalse nofun
  | .obj _, .null => isFalse nofun
  | .obj _, .bool _ => isFalse nofun
  | .obj _, .num _ => isFalse nofun
  | .obj _, .str _ => isFalse nofun
  | .obj _, .arr _ => isFalse nofun

/-- Decidable equality for lists of `JsonValue`. -/
def JsonValue.decEqElems : (xs ys : List JsonValue) → Decidable (xs = ys)
  | [], [] => isTrue rfl
  | [], _ :: _ => isFalse nofun
  | _ :: _, [] => isFalse nofun
  | x :: xs, y :: ys =>
    match JsonValue.decEq x y with
    | isTrue h1 =>
      match JsonValue.decEqElems xs ys with
      | isTrue h2 => isTrue (by rw [h1, h2])
      | isFalse h2 => isFalse (fun he => h2 (by cases he; rfl))
    | isFalse h1 => isFalse (fun he => h1 (by cases he; rfl))

/-- Decidable equality for association lists of `JsonValue`. -/
def JsonValue.decEqFields : (xs ys : List (String × JsonValue)) → Decidable (xs = ys)
  | [], [] => isTrue rfl
  | [], _ :: _ => isFalse nofun
  | _ :: _, [] => isFalse nofun
  | (k1, v1) :: xs, (k2, v2) :: ys =>
    match String.decEq k1 k2 with
    | isTrue hk =>
      match JsonValue.decEq v1 v2 with
      | isTrue h1 =>
        match JsonValue.decEqFields xs ys with
        | isTrue h2 => isTrue (by rw [hk, h1, h2])
        | isFalse h2 => isFalse (fun he => h2 (by cases he; rfl))
      | isFalse h1 => isFalse (fun he => h1 (by cases he; rfl))
    | isFalse hk => isFalse (fun he => hk (by cases he; rfl))

end

instance : DecidableEq JsonValue := JsonValue.decEq

/-- First-match lookup in an association list (Python dict lookup; keys are
unique after `json.loads`, so first match is the match). -/
def assocLookup : List (String × JsonValue) → String → Option JsonValue
  | [], _ => none
  | (k1, v1) :: rest, k => if k1 = k then some v1 else assocLookup rest k

/-- `v[k]`-style lookup returning `none` when `v` is not an object or lacks
the key. -/
def JsonValue.lookup : JsonValue → String → Option JsonValue
  | .obj fields, k => assocLookup fields k
  | _, _ => none

/-- Python `isinstance(v, dict)`. -/
def JsonValue.isDict : JsonValue → Bool
  | .obj _ => true
  | _ => false

/-- Python `isinstance(v, list)`. -/
def JsonValue.isList : JsonValue → Bool
  | .arr _ => true
  | _ => false

/-- Python `isinstance(v, str)`. -/
def JsonValue.isStr : JsonValue → Bool
  | .str _ => true
  | _ => false

/-- Python `k in v` for a dict `v`. -/
def JsonValue.hasKey (v : JsonValue) (k : String) : Bool :=
  (v.lookup k).isSome

/-- The `required_keys` list of `generate_recommendations` (app.py line 84). -/
def requiredKeys : List String := ["recommendations", "evidence", "kpis"]

/-- The distinct `ValueError` messages raised by the validation block of
`generate_recommendations` (app.py lines 81-102), as an enumeration. -/
inductive ValueErrorKind where
  | notADictionary
  | missingRequiredKeys
  | recommendationsNotArray
  | evidenceNotArray
  | kpisNotArray
  | invalidRecommendationFormat
  | itemsNotArray
deriving DecidableEq

/-- The per-element checks of the `for rec in recommendations['recommendations']`
loop (app.py lines 98-102): the element must be a dict containing keys
`category` and `items`, and `rec['items']` must be a list. -/
def checkRecElem (elem : JsonValue) : Except ValueErrorKind Unit :=
  if !(elem.isDict && elem.hasKey "category" && elem.hasKey "items") then
    .error .invalidRecommendationFormat
  else if !((elem.lookup "items").getD .null).isList then
    .error .itemsNotArray
  else
    .ok ()

/-- The loop over `recommendations['recommendations']` (app.py lines 98-102):
the first failing element raises; otherwise the loop completes. -/
def checkRecElems : List JsonValue → Except ValueErrorKind Unit
  | [] => .ok ()
  | e :: es =>
    match checkRecElem e with
    | .error err => .error err
    | .ok () => checkRecElems es

/-- The structure-validation block of `generate_recommendations`
(app.py lines 81-102), applied to the parsed response. -/
def validateStructure (recommendations : JsonValue) : Except ValueErrorKind Unit :=
  if !recommendations.isDict then
    .error .notADictionary
  else if !(requiredKeys.all fun k => recommendations.hasKey k) then
    .error .missingRequiredKeys
  else if !((recommendations.lookup "recommendations").getD .null).isList then
    .error .recommendationsNotArray
  else if !((recommendations.lookup "evidence").getD .null).isList then
    .error .evidenceNotArray
  else if !((recommendations.lookup "kpis").getD .null).isList then
    .error .kpisNotArray
  else
    match (recommendations.lookup "recommendations").getD .null with
    | .arr elems => checkRecElems elems
    | _ => .ok ()   -- unreachable: the earlier check established it is a list

/-- Outcome of the Response Validator (app.py lines 77-113): `json.loads`
failure maps to the `JSONDecodeError` branch (the spec's `MalformedResponse`),
a raised `ValueError` maps to the `except ValueError` branch (the spec's
`SchemaViolation`), and success returns the parsed value itself.
The `parsed` argument is the outcome of `json.loads` on the LLM text:
`none` when the text is not valid JSON. -/
inductive ValidatorOutcome where
  | malformedResponse : ValidatorOutcome
  | schemaViolation (e : ValueErrorKind) : ValidatorOutcome
  | accepted (v : JsonValue) : ValidatorOutcome
deriving DecidableEq

/-- The Response Validator of `generate_recommendations`. -/
def responseValidator (parsed : Option JsonValue) : ValidatorOutcome :=
  match parsed with
  | none => .malformedResponse
  | some v =>
    match validateStructure v with
    | .error e => .schemaViolation e
    | .ok () => .accepted v

/-- Body of an HTTP reply produced by a handler. -/
inductive ReplyBody where
  | jsonBody (v : JsonValue) : ReplyBody
deriving DecidableEq

/-- An HTTP reply assembled by a handler (Flask `jsonify` plus status). -/
structure HttpReply where
  status : Nat
  contentType : String
  dispositionHeader : Option String
  body : ReplyBody
deriving DecidableEq

/-- `jsonify(v)` with default status 200: JSON content type, no
Content-Disposition header. -/
def jsonOkReply (v : JsonValue) : HttpReply :=
  { status := 200, contentType := "application/json",
    dispositionHeader := none, body := .jsonBody v }

/-- `jsonify({"error": msg}), status`: a JSON object with a single `error`
string. -/
def jsonErrorReply (msg : String) (status : Nat) : HttpReply :=
  { status := status, contentType := "application/json",
    dispositionHeader := none,
    body := .jsonBody (.obj [("error", .str msg)]) }

/-- The reply of `generate_recommendations` once the LLM text is in hand
(app.py lines 77-113): parse failure gives the fixed 500 error body of the
`JSONDecodeError` branch, a schema violation gives the fixed 500 error body
of the `except ValueError` branch, and success returns
`jsonify(recommendations)` - the parsed value unchanged. -/
def generateRecommendationsReply (parsed : Option JsonValue) : HttpReply :=
  match responseValidator parsed with
  | .malformedResponse => jsonErrorReply "Failed to generate valid recommendations" 500
  | .schemaViolation _ => jsonErrorReply "Invalid recommendations format" 500
  | .accepted v => jsonOkReply v

/-! ### Spec-side shape of a RecommendationSet

These definitions follow the words of the spec and of the claims (the
required shape of a `RecommendationSet`), to be compared with the source's
validator above. -/

/-- Spec-side shape of one element of `recommendations`: a mapping
containing `category` and `items` with `items` a list. -/
def specRecElemShape (elem : JsonValue) : Bool :=
  elem.isDict && elem.hasKey "category" && elem.hasKey "items"
    && ((elem.lookup "items").getD .null).isList

/-- Spec-side required shape of a parsed RecommendationSet: a mapping with
fields `recommendations`, `evidence`, `kpis`, each a list, and every element
of `recommendations` of the required element shape. -/
def specRecommendationSetShape (v : JsonValue) : Bool :=
  v.isDict && v.hasKey "recommendations" && v.hasKey "evidence" && v.hasKey "kpis"
    && ((v.lookup "recommendations").getD .null).isList
    && ((v.lookup "evidence").getD .null).isList
    && ((v.lookup "kpis").getD .null).isList
    && (match (v.lookup "recommendations").getD .null with
        | .arr elems => elems.all specRecElemShape
        | _ => true)

/-! ### The validator accepts exactly the spec shape -/

theorem checkRecElem_ok_iff (elem : JsonValue) :
    checkRecElem elem = .ok () ↔ specRecElemShape elem = true := by
  unfold checkRecElem specRecElemShape
  cases h1 : (elem.isDict && elem.hasKey "category" && elem.hasKey "items") <;>
    cases h2 : ((elem.lookup "items").getD .null).isList <;>
    simp [h1, h2]

theorem checkRecElems_ok_iff (elems : List JsonValue) :
    checkRecElems elems = .ok () ↔ elems.all specRecElemShape = true := by
  induction elems with
  | nil => simp [checkRecElems]
  | cons e es ih =>
    simp only [checkRecElems, List.all_cons, Bool.and_eq_true]
    cases h : checkRecElem e with
    | error err =>
      simp only [h]
      constructor
      · intro hc; cases hc
      · rintro ⟨he, _⟩
        rw [← checkRecElem_ok_iff] at he
        rw [h] at he; cases he
    | ok u =>
      cases u
      simp only [h, ih]
      constructor
      · intro hc; exact ⟨(checkRecElem_ok_iff e).mp h, hc⟩
      · rintro ⟨_, hc⟩; exact hc

theorem validateStructure_ok_iff (v : JsonValue) :
    validateStructure v = .ok () ↔ specRecommendationSetShape v = true := by
  unfold validateStructure specRecommendationSetShape
  have hreq : (requiredKeys.all fun k => v.hasKey k)
      = (v.hasKey "recommendations" && v.hasKey "evidence" && v.hasKey "kpis") := by
    simp [requiredKeys, List.all_cons, List.all_nil, Bool.and_assoc]
  rw [hreq]
  cases h1 : v.isDict <;>
    cases h2 : (v.hasKey "recommendations" && v.hasKey "evidence" && v.hasKey "kpis") <;>
    cases h3 : ((v.lookup "recommendations").getD .null).isList <;>
    cases h4 : ((v.lookup "evidence").getD .null).isList <;>
    cases h5 : ((v.lookup "kpis").getD .null).isList <;>
    simp [h1, h2, h3, h4, h5]
  · cases hr : (v.lookup "recommendations").getD .null with
    | arr elems => simpa using checkRecElems_ok_iff elems
    | null => rw [hr] at h3; cases h3
    | bool b => rw [hr] at h3; cases h3
    | num n => rw [hr] at h3; cases h3
    | str s => rw [hr] at h3; cases h3
    | obj fields => rw [hr] at h3; cases h3

/-! ### Grouping of assessment results by category

`generate_recommendations` begins (app.py lines 35-43), BEFORE its `try`
block:

    data = request.json
    assessment_results = data.get('assessment_results', [])
    results_by_category = {}
    for result in assessment_results:
        if result['category'] not in results_by_category:
            results_by_category[result['category']] = []
        results_by_category[result['category']].append(result)

`result['category']` raises `KeyError` when `result` is a dict without the
key, and `TypeError` when `result` is not subscriptable by a string.  The
dict `results_by_category` is modelled as an association list in insertion
order (Python dicts preserve insertion order). -/

/-- A Python exception raised while a handler runs. -/
inductive PyError where
  | keyError (k : String)
  | typeError
deriving DecidableEq

/-- Python `result[k]`: the value under `k`, `KeyError` when the dict lacks
the key, `TypeError` when `result` is not a dict (indexing a non-mapping by
a string). -/
def pyGetItem (v : JsonValue) (k : String) : Except PyError JsonValue :=
  match v with
  | .obj fields =>
    match assocLookup fields k with
    | some x => .ok x
    | none => .error (.keyError k)
  | _ => .error .typeError

/-- The `results_by_category` dict: category value, list of results. -/
abbrev Grouping := List (JsonValue × List JsonValue)

/-- Python `key in dict`. -/
def dictContains (d : Grouping) (k : JsonValue) : Bool :=
  d.any fun p => p.1 = k

/-- Python `d[key].append(r)` on a dict whose keys are unique: the (single)
entry under `key` gets `r` appended; other entries are unchanged. -/
def dictAppendAt : Grouping → JsonValue → JsonValue → Grouping
  | [], _, _ => []
  | (k1, vs) :: rest, k, r =>
    if k1 = k then (k1, vs ++ [r]) :: rest
    else (k1, vs) :: dictAppendAt rest k r

/-- The grouping loop of `generate_recommendations` (app.py lines 39-43),
starting from the accumulated dict `d`: if `result['category']` raises, the
exception propagates (there is no enclosing `try`). -/
def groupResultsByCategory : List JsonValue → Grouping → Except PyError Grouping
  | [], d => .ok d
  | r :: rs, d =>
    match pyGetItem r "category" with
    | .error e => .error e
    | .ok cat =>
      let d1 := if dictContains d cat then d else d ++ [(cat, [])]
      groupResultsByCategory rs (dictAppendAt d1 cat r)

/-! ### The endpoint as a whole -/

/-- Outcome of one request to a handler: either the handler builds an HTTP
reply, or an exception escapes the handler (no `try` in the handler catches
it) and the framework produces its default error page instead of a
handler-built JSON body. -/
inductive EndpointOutcome where
  | reply (r : HttpReply)
  | uncaughtException (e : PyError)
deriving DecidableEq

/-- Outcome of the external LLM call inside the `try` of
`generate_recommendations`: the call may raise (caught by the
`except Exception` at app.py line 115), or return text whose `json.loads`
result is `parsed` (`none` when the text is not valid JSON). -/
inductive LlmOutcome where
  | failure (msg : String)
  | text (parsed : Option JsonValue)

/-- The whole `/api/generate-recommendations` handler (app.py lines 33-117):
grouping runs before the `try` block, so a `KeyError`/`TypeError` raised by
`result['category']` escapes the handler; inside the `try`, a raised
provider error becomes `jsonify({"error": str(e)}), 500`, and the LLM text
goes through parsing and validation. -/
def generateRecommendationsEndpoint (assessmentResults : List JsonValue)
    (llm : LlmOutcome) : EndpointOutcome :=
  match groupResultsByCategory assessmentResults [] with
  | .error e => .uncaughtException e
  | .ok _ =>
    match llm with
    | .failure msg => .reply (jsonErrorReply msg 500)
    | .text parsed => .reply (generateRecommendationsReply parsed)

/-! ### Report assembly (`generate_report`, `generate_pdf`, `share_report`)

`generate_pdf` (app.py lines 232-518) and `share_report` (lines 520-811)
wrap content in one and the same f-string HTML template.  The template's
data-carrying slots are, in document order: the `<title>` (program name,
default `'Program'`), the header `<h2>` (program name, default
`'Program Name'`), the header `<p>` (institution name, default
`'Institution Name'`), the generation date, and the content region.  The
static CSS/script text of the template carries no request data and is not
reproduced here. -/

/-- Python f-string interpolation of a value that may be `None`:
`f"{x}"` is the four-character text `None` when `x` is `None`. -/
def pyFormatOptStr : Option String → String
  | none => "None"
  | some s => s

/-- First-match lookup in a string-valued association list. -/
def lookupStr : List (String × String) → String → Option String
  | [], _ => none
  | (k1, v1) :: rest, k => if k1 = k then some v1 else lookupStr rest k

/-- Python `info.get(k, dflt)` on the `institution_info` dict. -/
def pyGetD (info : List (String × String)) (k dflt : String) : String :=
  match lookupStr info k with
  | some v => v
  | none => dflt

/-- The data-carrying slots of the assembled HTML report, in document
order. -/
structure AssembledReport where
  titleProgramName : String
  headerProgramName : String
  headerInstitutionName : String
  generatedOn : String
  contentRegion : String
deriving DecidableEq

/-- The Report Assembler shared by `generate_pdf` (app.py lines 240-512) and
`share_report` (lines 533-805): header/title substitution from
`institution_info` with the template's defaults, date line, and the content
region interpolated verbatim. -/
def assembleHtmlReport (content : String) (info : List (String × String))
    (now : String) : AssembledReport :=
  { titleProgramName := pyGetD info "programName" "Program"
  , headerProgramName := pyGetD info "programName" "Program Name"
  , headerInstitutionName := pyGetD info "institutionName" "Institution Name"
  , generatedOn := now
  , contentRegion := content }

/-- Rendering of the data-carrying slots of the assembled document in
document order (the static style/script text between them is omitted: it
contains no request data). -/
def renderReport (r : AssembledReport) : String :=
  "<title>Program Assessment Report - " ++ r.titleProgramName ++ "</title>"
    ++ "<h1>Program Assessment Report</h1><h2>" ++ r.headerProgramName
    ++ "</h2><p>" ++ r.headerInstitutionName ++ "</p><p>Generated on "
    ++ r.generatedOn ++ "</p>"
    ++ "<div>" ++ r.contentRegion ++ "</div>"

/-- The whole `/api/generate-pdf` handler (app.py lines 232-518): reads
`html_content` with `data.get('html_content')` (so an absent field is
`None`, interpolated by the f-string as the text `None`), assembles the
HTML template, and returns `jsonify({"html_report": complete_html})` -
a JSON reply with default status 200, not a PDF. -/
def generatePdfEndpoint (htmlContent : Option String)
    (institutionInfo : List (String × String)) (now : String) : EndpointOutcome :=
  .reply { status := 200, contentType := "application/json",
           dispositionHeader := none,
           body := .jsonBody (.obj [("html_report",
             .str (renderReport (assembleHtmlReport (pyFormatOptStr htmlContent)
               institutionInfo now)))]) }

/-- The `/api/share-report` handler (app.py lines 520-811): converts the
Markdown `report` to HTML with the external `markdown.markdown` library
(passed in as `markdownRender`), assembles the same template, and returns
`jsonify({"html_report": complete_html})`. -/
def shareReportEndpoint (markdownRender : String → String) (report : String)
    (institutionInfo : List (String × String)) (now : String) : EndpointOutcome :=
  .reply { status := 200, contentType := "application/json",
           dispositionHeader := none,
           body := .jsonBody (.obj [("html_report",
             .str (renderReport (assembleHtmlReport (markdownRender report)
               institutionInfo now)))]) }

/-- The nine `institution_info` field keys read by the Section A block of
the `generate_report` prompt (app.py lines 134-142). -/
def institutionFieldKeys : List String :=
  ["institutionName", "programName", "yearEstablished", "totalGraduates",
   "firstGraduatingBatch", "currentStudents", "facultyMembers",
   "programTracks", "creditHours"]

/-- One field substitution of the Section A block of the `generate_report`
prompt: `institution_info.get(k, '-')`. -/
def sectionAValue (info : List (String × String)) (k : String) : String :=
  pyGetD info k "-"

/-- Section A of the `generate_report` prompt (app.py lines 133-142), as
label/value lines in prompt order. -/
def reportSectionA (info : List (String × String)) : List (String × String) :=
  [("Institution Name", sectionAValue info "institutionName"),
   ("Program Name", sectionAValue info "programName"),
   ("Year Established", sectionAValue info "yearEstablished"),
   ("Total Number of Graduates", sectionAValue info "totalGraduates"),
   ("First Graduating Batch", sectionAValue info "firstGraduatingBatch"),
   ("Current Number of Students", sectionAValue info "currentStudents"),
   ("Number of Faculty Members", sectionAValue info "facultyMembers"),
   ("Program Tracks", sectionAValue info "programTracks"),
   ("Total Credit Hours", sectionAValue info "creditHours")]

/-! ### Correctness lemmas for the grouping loop -/

theorem pyGetItem_of_lookup (r : JsonValue) (k : String) (c : JsonValue)
    (h : r.lookup k = some c) : pyGetItem r k = .ok c := by
  cases r <;> simp [JsonValue.lookup] at h
  case obj fields => simp [pyGetItem, h]

theorem dictAppendAt_keys (d : Grouping) (k r : JsonValue) :
    (dictAppendAt d k r).map Prod.fst = d.map Prod.fst := by
  induction d with
  | nil => rfl
  | cons p rest ih =>
    obtain ⟨k1, vs⟩ := p
    by_cases h : k1 = k
    · simp [dictAppendAt, h]
    · simp [dictAppendAt, h, ih]

theorem dictContains_iff (d : Grouping) (k : JsonValue) :
    dictContains d k = true ↔ k ∈ d.map Prod.fst := by
  induction d with
  | nil => simp [dictContains]
  | cons p rest ih =>
    obtain ⟨k1, vs⟩ := p
    simp only [dictContains, List.any_cons, Bool.or_eq_true, decide_eq_true_eq,
      List.map_cons, List.mem_cons] at *
    constructor
    · rintro (h | h)
      · exact Or.inl h.symm
      · exact Or.inr (ih.mp h)
    · rintro (h | h)
      · exact Or.inl h.symm
      · exact Or.inr (ih.mpr h)

theorem mem_dictAppendAt (d : Grouping) (k r c : JsonValue) (vs : List JsonValue)
    (hnd : (d.map Prod.fst).Nodup)
    (hmem : (c, vs) ∈ dictAppendAt d k r) :
    (c ≠ k ∧ (c, vs) ∈ d) ∨ (c = k ∧ ∃ vs0, (k, vs0) ∈ d ∧ vs = vs0 ++ [r]) := by
  induction d with
  | nil => cases hmem
  | cons p rest ih =>
    obtain ⟨k1, vs1⟩ := p
    simp only [List.map_cons, List.nodup_cons] at hnd
    obtain ⟨hk1notin, hndrest⟩ := hnd
    by_cases h : k1 = k
    · subst h
      simp [dictAppendAt, List.mem_cons, Prod.mk.injEq] at hmem
      rcases hmem with ⟨h1, h2⟩ | hmem
      · subst h1; subst h2
        exact Or.inr ⟨rfl, vs1, List.mem_cons_self _ _, rfl⟩
      · by_cases hck : c = k1
        · subst hck
          exact absurd (List.mem_map.mpr ⟨(c, vs), hmem, rfl⟩) hk1notin
        · exact Or.inl ⟨hck, List.mem_cons_of_mem _ hmem⟩
    · simp [dictAppendAt, h, List.mem_cons, Prod.mk.injEq] at hmem
      rcases hmem with ⟨h1, h2⟩ | hmem
      · subst h1; subst h2
        exact Or.inl ⟨h, List.mem_cons_self _ _⟩
      · rcases ih hndrest hmem with ⟨hck, hin⟩ | ⟨hck, vs0, hin, hvs⟩
        · exact Or.inl ⟨hck, List.mem_cons_of_mem _ hin⟩
        · exact Or.inr ⟨hck, vs0, List.mem_cons_of_mem _ hin, hvs⟩

theorem groupResultsByCategory_invariant (results : List JsonValue) :
    ∀ (done : List JsonValue) (d : Grouping),
    (∀ r ∈ results, (JsonValue.lookup r "category").isSome = true) →
    (d.map Prod.fst).Nodup →
    (∀ c : JsonValue, c ∈ d.map Prod.fst ↔
      some c ∈ done.map (fun r => r.lookup "category")) →
    (∀ (c : JsonValue) (vs : List JsonValue), (c, vs) ∈ d →
      vs = done.filter (fun r => decide (r.lookup "category" = some c))) →
    ∃ dfin, groupResultsByCategory results d = .ok dfin ∧
      (dfin.map Prod.fst).Nodup ∧
      (∀ c : JsonValue, c ∈ dfin.map Prod.fst ↔
        some c ∈ (done ++ results).map (fun r => r.lookup "category")) ∧
      (∀ (c : JsonValue) (vs : List JsonValue), (c, vs) ∈ dfin →
        vs = (done ++ results).filter (fun r => decide (r.lookup "category" = some c))) := by
  induction results with
  | nil =>
    intro done d _ hnd hkeys hvals
    exact ⟨d, rfl, hnd, by simpa using hkeys, by simpa using hvals⟩
  | cons r rs ih =>
    intro done d hall hnd hkeys hvals
    obtain ⟨c0, hc0⟩ := Option.isSome_iff_exists.mp (hall r (List.mem_cons_self _ _))
    have hstep : groupResultsByCategory (r :: rs) d
        = groupResultsByCategory rs
            (dictAppendAt (if dictContains d c0 then d else d ++ [(c0, [])]) c0 r) := by
      simp [groupResultsByCategory, pyGetItem_of_lookup r "category" c0 hc0]
    set d1 : Grouping := if dictContains d c0 then d else d ++ [(c0, [])] with hd1
    -- keys of d1 and their properties
    have hall' : ∀ x ∈ rs, (JsonValue.lookup x "category").isSome = true :=
      fun x hx => hall x (List.mem_cons_of_mem _ hx)
    have hnd1 : (d1.map Prod.fst).Nodup := by
      rw [hd1]
      by_cases hcont : dictContains d c0
      · simpa [hcont] using hnd
      · have hc0notin : c0 ∉ d.map Prod.fst := fun hmem =>
          hcont ((dictContains_iff d c0).mpr hmem)
        simp [hcont, List.nodup_append, hnd, hc0notin]
    have hkeys1 : ∀ c : JsonValue, c ∈ d1.map Prod.fst ↔
        (c ∈ d.map Prod.fst ∨ c = c0) := by
      intro c
      rw [hd1]
      by_cases hcont : dictContains d c0
      · have hc0in : c0 ∈ d.map Prod.fst := (dictContains_iff d c0).mp hcont
        simp only [if_pos hcont]
        constructor
        · exact Or.inl
        · rintro (h | h)
          · exact h
          · exact h ▸ hc0in
      · simp [if_neg hcont, List.map_append]
    have hnd2 : ((dictAppendAt d1 c0 r).map Prod.fst).Nodup := by
      rw [dictAppendAt_keys]; exact hnd1
    have hkeys2 : ∀ c : JsonValue, c ∈ (dictAppendAt d1 c0 r).map Prod.fst ↔
        some c ∈ (done ++ [r]).map (fun x => x.lookup "category") := by
      intro c
      rw [dictAppendAt_keys, hkeys1, List.map_append, List.mem_append]
      simp only [List.map_cons, List.map_nil, List.mem_singleton, hc0,
        Option.some.injEq]
      rw [← hkeys c]
    have hfilter_r : ∀ c : JsonValue,
        List.filter (fun x => decide (JsonValue.lookup x "category" = some c)) [r]
          = if c = c0 then [r] else [] := by
      intro c
      by_cases hcc : c = c0
      · subst hcc; simp [List.filter_cons, List.filter_nil, hc0]
      · have hne : (some c0 = some c) = False :=
          eq_false fun h => hcc (Option.some.inj h).symm
        simp [List.filter_cons, List.filter_nil, hc0, hne, if_neg hcc]
    have hvals2 : ∀ (c : JsonValue) (vs : List JsonValue),
        (c, vs) ∈ dictAppendAt d1 c0 r →
        vs = (done ++ [r]).filter (fun x => decide (x.lookup "category" = some c)) := by
      intro c vs hmem
      rcases mem_dictAppendAt d1 c0 r c vs hnd1 hmem with
        ⟨hck, hin⟩ | ⟨hck, vs0, hin, hvs⟩
      · -- unchanged entry: c ≠ c0
        have hind : (c, vs) ∈ d := by
          rw [hd1] at hin
          by_cases hcont : dictContains d c0
          · simpa [hcont] using hin
          · rw [if_neg hcont, List.mem_append] at hin
            rcases hin with hin | hin
            · exact hin
            · simp only [List.mem_singleton] at hin
              injection hin with h1 _
              exact absurd h1 hck
        rw [List.filter_append, hfilter_r c, if_neg hck, List.append_nil]
        exact hvals c vs hind
      · -- the entry under c0 got r appended
        subst hck
        rw [List.filter_append, hfilter_r c, if_pos rfl]
        rw [hd1] at hin
        by_cases hcont : dictContains d c
        · rw [if_pos hcont] at hin
          rw [hvs, hvals c vs0 hin]
        · rw [if_neg hcont, List.mem_append] at hin
          have hcnotin : c ∉ d.map Prod.fst := fun hmem' =>
            hcont ((dictContains_iff d c).mpr hmem')
          rcases hin with hin | hin
          · exact absurd (List.mem_map.mpr ⟨(c, vs0), hin, rfl⟩) hcnotin
          · simp only [List.mem_singleton, Prod.mk.injEq] at hin
            have hdone : done.filter
                (fun x => decide (x.lookup "category" = some c)) = [] := by
              rw [List.filter_eq_nil_iff]
              intro a ha
              simp only [decide_eq_true_eq]
              intro hac
              exact hcnotin ((hkeys c).mpr (List.mem_map.mpr ⟨a, ha, hac⟩))
            simp [hvs, hin.2, hdone]
    obtain ⟨dfin, hrun, hndf, hkeysf, hvalsf⟩ :=
      ih (done ++ [r]) (dictAppendAt d1 c0 r) hall' hnd2 hkeys2 hvals2
    refine ⟨dfin, ?_, hndf, ?_, ?_⟩
    · rw [hstep]; exact hrun
    · intro c
      have := hkeysf c
      rwa [List.append_assoc, List.singleton_append] at this
    · intro c vs hm
      have := hvalsf c vs hm
      rwa [List.append_assoc, List.singleton_append] at this

/-! ### Spec-side: non-string elements (claim C4) -/

/-- Some element of the list is not a string. -/
def listHasNonString (xs : List JsonValue) : Bool :=
  xs.any fun x => !x.isStr

/-- Spec-side (from the claim): the parsed response has a non-string value
somewhere the spec's RecommendationSet entity requires a string: an element
of `evidence` or `kpis`, an element of some recommendation's `items`, or
some recommendation's `category`. -/
def hasNonStringElement (v : JsonValue) : Bool :=
  (match v.lookup "evidence" with
   | some (.arr xs) => listHasNonString xs
   | _ => false)
  || (match v.lookup "kpis" with
      | some (.arr xs) => listHasNonString xs
      | _ => false)
  || (match v.lookup "recommendations" with
      | some (.arr elems) =>
        elems.any fun elem =>
          (match elem.lookup "category" with
           | some c => !c.isStr
           | none => false)
          || (match elem.lookup "items" with
              | some (.arr xs) => listHasNonString xs
              | _ => false)
      | _ => false)

/-! ### Concrete inputs used by witnesses and counterexamples -/

/-- The spec's minimal valid RecommendationSet:
`{"recommendations": [{"category": "A", "items": ["x"]}], "evidence": [], "kpis": []}`. -/
def minimalValidRecommendationSet : JsonValue :=
  .obj [("recommendations",
          .arr [.obj [("category", .str "A"), ("items", .arr [.str "x"])]]),
        ("evidence", .arr []),
        ("kpis", .arr [])]

/-- A parsed response missing the `evidence` key. -/
def missingEvidenceExample : JsonValue :=
  .obj [("recommendations", .arr []), ("kpis", .arr [])]

/-- A parsed response whose containers are all of the right shape but whose
`category`, `items` elements, `evidence` element and `kpis` element are all
non-strings. -/
def nonStringExample : JsonValue :=
  .obj [("recommendations",
          .arr [.obj [("category", .num 1), ("items", .arr [.num 2])]]),
        ("evidence", .arr [.num 3]),
        ("kpis", .arr [.bool true])]

/-- A structurally valid parsed response carrying an extra top-level key. -/
def extraKeyExample : JsonValue :=
  .obj [("recommendations", .arr []), ("evidence", .arr []), ("kpis", .arr []),
        ("notes", .str "kept")]

/-- An assessment-result entry without a `category` key: `{"score": 2}`. -/
def missingCategoryResult : JsonValue := .obj [("score", .num 2)]

/-- Assessment result `{category: "Teaching", score: 2}`. -/
def teachingResult1 : JsonValue :=
  .obj [("category", .str "Teaching"), ("score", .num 2)]

/-- Assessment result `{category: "Teaching", score: 4}`. -/
def teachingResult2 : JsonValue :=
  .obj [("category", .str "Teaching"), ("score", .num 4)]

/-! ### Claim theorems -/

/-- Claim C1: every parsed response with exactly the required
RecommendationSet shape (a mapping with `recommendations`, `evidence`,
`kpis`, each a list, and every element of `recommendations` a mapping
containing `category` and `items` with `items` a list) is accepted by the
Response Validator of `/api/generate-recommendations`, which returns the
parsed value itself unchanged (round-trip identity: no coercion, no
defaulting, no reordering of fields or elements). -/
theorem c1_validator_roundtrip_identity (v : JsonValue)
    (h : specRecommendationSetShape v = true) :
    responseValidator (some v) = .accepted v ∧
    generateRecommendationsReply (some v) = jsonOkReply v := by
  have hok : validateStructure v = .ok () := (validateStructure_ok_iff v).mpr h
  exact ⟨by simp [responseValidator, hok],
         by simp [generateRecommendationsReply, responseValidator, hok]⟩

theorem c1_validator_roundtrip_identity_witness :
    specRecommendationSetShape minimalValidRecommendationSet = true ∧
    responseValidator (some minimalValidRecommendationSet)
      = .accepted minimalValidRecommendationSet ∧
    generateRecommendationsReply (some minimalValidRecommendationSet)
      = jsonOkReply minimalValidRecommendationSet := by
  have h : specRecommendationSetShape minimalValidRecommendationSet = true := by
    decide
  exact ⟨h, (c1_validator_roundtrip_identity minimalValidRecommendationSet h).1,
         (c1_validator_roundtrip_identity minimalValidRecommendationSet h).2⟩

/-- Claim C2: every parsed response violating the required container shape
(parse result not a mapping, a missing required top-level field, a required
field that is not a list, or an element of `recommendations` that is not a
mapping with `category` and `items` and `items` a list) makes the validation
in `/api/generate-recommendations` fail with a SchemaViolation (a raised
`ValueError`), and the HTTP layer returns status 500 with the descriptive
JSON error body. -/
theorem c2_schema_violation_on_bad_shape (v : JsonValue)
    (h : specRecommendationSetShape v = false) :
    (∃ e, responseValidator (some v) = .schemaViolation e) ∧
    generateRecommendationsReply (some v)
      = jsonErrorReply "Invalid recommendations format" 500 := by
  have hnok : validateStructure v ≠ .ok () := by
    intro hc
    rw [(validateStructure_ok_iff v).mp hc] at h
    cases h
  cases hv : validateStructure v with
  | error e =>
    exact ⟨⟨e, by simp [responseValidator, hv]⟩,
           by simp [generateRecommendationsReply, responseValidator, hv]⟩
  | ok u => cases u; exact absurd hv hnok

theorem c2_schema_violation_on_bad_shape_witness :
    specRecommendationSetShape missingEvidenceExample = false ∧
    ((∃ e, responseValidator (some missingEvidenceExample) = .schemaViolation e) ∧
     generateRecommendationsReply (some missingEvidenceExample)
       = jsonErrorReply "Invalid recommendations format" 500) :=
  ⟨by decide, c2_schema_violation_on_bad_shape missingEvidenceExample (by decide)⟩

/-- Claim C3: when the LLM text is not parseable as JSON, the Response
Validator of `/api/generate-recommendations` fails with MalformedResponse -
an outcome distinct from every SchemaViolation - and the endpoint returns a
JSON error body with status 500. -/
theorem c3_malformed_response_on_parse_failure :
    responseValidator none = .malformedResponse ∧
    generateRecommendationsReply none
      = jsonErrorReply "Failed to generate valid recommendations" 500 ∧
    (∀ e : ValueErrorKind,
      ValidatorOutcome.malformedResponse ≠ ValidatorOutcome.schemaViolation e) :=
  ⟨rfl, rfl, fun _ h => nomatch h⟩

/-- Claim C4 counterexample: a parsed response whose `category`, `items`
element, `evidence` element and `kpis` element are all non-strings is
accepted by `/api/generate-recommendations` with status 200 - the request
does not fail, contradicting the claim that the data must be sequences of
strings or the request fails. -/
theorem c4_counterexample_nonstring_accepted :
    hasNonStringElement nonStringExample = true ∧
    generateRecommendationsReply (some nonStringExample)
      = jsonOkReply nonStringExample ∧
    (jsonOkReply nonStringExample).status = 200 := by
  refine ⟨by decide, by decide, rfl⟩

/-- Claim C4 amended: the validator enforces only container shapes; a parsed
response containing non-string elements where the spec's RecommendationSet
entity says strings is still accepted (returned unchanged with status 200)
whenever the container shape holds. -/
theorem c4_amended_nonstring_not_rejected (v : JsonValue)
    (_hns : hasNonStringElement v = true)
    (hshape : specRecommendationSetShape v = true) :
    generateRecommendationsReply (some v) = jsonOkReply v := by
  have hok : validateStructure v = .ok () := (validateStructure_ok_iff v).mpr hshape
  simp [generateRecommendationsReply, responseValidator, hok]

theorem c4_amended_nonstring_not_rejected_witness :
    (hasNonStringElement nonStringExample = true ∧
     specRecommendationSetShape nonStringExample = true) ∧
    generateRecommendationsReply (some nonStringExample)
      = jsonOkReply nonStringExample :=
  ⟨⟨by decide, by decide⟩,
   c4_amended_nonstring_not_rejected nonStringExample (by decide) (by decide)⟩

/-- Claim C5, code bug: in `generate_recommendations` the grouping loop runs
BEFORE the `try` block (app.py lines 35-43 vs the `try` at line 57), so with
an assessment-results entry lacking `category` the `KeyError` escapes the
handler: the caller gets the framework's default error page, not the
handler-built JSON `{error: ...}` body that the spec's propagation policy
promises - and this happens before the LLM is even consulted (the outcome is
the same for every LLM outcome). -/
theorem c5_uncaught_keyerror_before_try :
    generateRecommendationsEndpoint [missingCategoryResult]
        (.text none) = .uncaughtException (.keyError "category") ∧
    (∀ llm : LlmOutcome,
      generateRecommendationsEndpoint [missingCategoryResult] llm
        = .uncaughtException (.keyError "category")) :=
  ⟨rfl, fun _ => rfl⟩

/-- Claim C6 counterexample: a concrete successful POST to
`/api/generate-pdf` returns `jsonify({"html_report": ...})` - a JSON reply
with Content-Type application/json and no Content-Disposition header - and
not a binary PDF. -/
theorem c6_counterexample_json_not_pdf :
    generatePdfEndpoint (some "<p>content</p>") [("programName", "CS")] "May 01, 2025"
      = .reply { status := 200, contentType := "application/json",
                 dispositionHeader := none,
                 body := .jsonBody (.obj [("html_report",
                   .str (renderReport (assembleHtmlReport "<p>content</p>"
                     [("programName", "CS")] "May 01, 2025")))]) } ∧
    "application/json" ≠ "application/pdf" :=
  ⟨rfl, by decide⟩

/-- Claim C6 amended: every successful POST to `/api/generate-pdf` returns a
JSON reply - status 200, Content-Type application/json (not
application/pdf), no Content-Disposition header - whose body is the object
`{"html_report": <assembled HTML document>}`; no binary PDF is produced. -/
theorem c6_amended_generate_pdf_returns_json (htmlContent : Option String)
    (info : List (String × String)) (now : String) :
    generatePdfEndpoint htmlContent info now
      = .reply { status := 200, contentType := "application/json",
                 dispositionHeader := none,
                 body := .jsonBody (.obj [("html_report",
                   .str (renderReport (assembleHtmlReport
                     (pyFormatOptStr htmlContent) info now)))]) } ∧
    "application/json" ≠ "application/pdf" :=
  ⟨rfl, by decide⟩

/-- Claim C7 counterexample: with `institution_info` empty (every field
missing), the `generate_pdf`/`share_report` template substitutes the
defaults `Program`, `Program Name` and `Institution Name` - not the
placeholder `-` that the claim asserts for every handler. -/
theorem c7_counterexample_pdf_defaults_not_dash :
    (assembleHtmlReport "c" [] "d").headerProgramName = "Program Name" ∧
    (assembleHtmlReport "c" [] "d").titleProgramName = "Program" ∧
    (assembleHtmlReport "c" [] "d").headerInstitutionName = "Institution Name" ∧
    "Program Name" ≠ "-" :=
  ⟨rfl, rfl, rfl, by decide⟩

/-- Claim C7 amended: missing `institution_info` fields never raise, and are
substituted as follows: in the `generate_report` prompt every missing field
of Section A renders as the placeholder `-`; in the HTML template of
`generate_pdf`/`share_report` a missing `programName` renders as `Program`
in the title and `Program Name` in the header, and a missing
`institutionName` renders as `Institution Name`. -/
theorem c7_amended_missing_fields_defaults (info : List (String × String))
    (content now : String) :
    (∀ k, k ∈ institutionFieldKeys → lookupStr info k = none →
      sectionAValue info k = "-") ∧
    (lookupStr info "programName" = none →
      (assembleHtmlReport content info now).titleProgramName = "Program" ∧
      (assembleHtmlReport content info now).headerProgramName = "Program Name") ∧
    (lookupStr info "institutionName" = none →
      (assembleHtmlReport content info now).headerInstitutionName
        = "Institution Name") := by
  refine ⟨?_, ?_, ?_⟩
  · intro k _ hm
    simp [sectionAValue, pyGetD, hm]
  · intro hm
    constructor <;> simp [assembleHtmlReport, pyGetD, hm]
  · intro hm
    simp [assembleHtmlReport, pyGetD, hm]

theorem c7_amended_missing_fields_defaults_witness :
    ("programName" ∈ institutionFieldKeys ∧
     lookupStr [] "programName" = none ∧
     lookupStr [] "institutionName" = none) ∧
    sectionAValue [] "programName" = "-" ∧
    (assembleHtmlReport "c" [] "d").headerProgramName = "Program Name" ∧
    (assembleHtmlReport "c" [] "d").headerInstitutionName = "Institution Name" :=
  ⟨⟨by decide, rfl, rfl⟩,
   (c7_amended_missing_fields_defaults [] "c" "d").1 "programName" (by decide) rfl,
   ((c7_amended_missing_fields_defaults [] "c" "d").2.1 rfl).2,
   (c7_amended_missing_fields_defaults [] "c" "d").2.2 rfl⟩

/-- Claim C8: for every list of assessment results (each an object carrying
a `category` key), the grouping loop of `/api/generate-recommendations`
produces a dict with exactly one key per distinct category (keys are
nodup, and a category appears as a key exactly when some entry has it),
where each key maps to the list of ALL entries having that category, in
their original input order (the filter of the input list). -/
theorem c8_grouping_one_key_per_category (results : List JsonValue)
    (hall : ∀ r ∈ results, (JsonValue.lookup r "category").isSome = true) :
    ∃ d, groupResultsByCategory results [] = .ok d ∧
      (d.map Prod.fst).Nodup ∧
      (∀ c : JsonValue, c ∈ d.map Prod.fst ↔
        some c ∈ results.map (fun r => r.lookup "category")) ∧
      (∀ (c : JsonValue) (vs : List JsonValue), (c, vs) ∈ d →
        vs = results.filter (fun r => decide (r.lookup "category" = some c))) := by
  have h := groupResultsByCategory_invariant results [] []
    hall (by simp) (by simp) (by simp)
  simpa using h

theorem c8_grouping_one_key_per_category_witness :
    (∀ r ∈ [teachingResult1, teachingResult2],
      (JsonValue.lookup r "category").isSome = true) ∧
    (∃ d, groupResultsByCategory [teachingResult1, teachingResult2] [] = .ok d ∧
      (d.map Prod.fst).Nodup ∧
      (∀ c : JsonValue, c ∈ d.map Prod.fst ↔
        some c ∈ [teachingResult1, teachingResult2].map (fun r => r.lookup "category")) ∧
      (∀ (c : JsonValue) (vs : List JsonValue), (c, vs) ∈ d →
        vs = [teachingResult1, teachingResult2].filter
          (fun r => decide (r.lookup "category" = some c)))) ∧
    groupResultsByCategory [teachingResult1, teachingResult2] []
      = .ok [(.str "Teaching", [teachingResult1, teachingResult2])] := by
  have hall : ∀ r ∈ [teachingResult1, teachingResult2],
      (JsonValue.lookup r "category").isSome = true := by decide
  exact ⟨hall, c8_grouping_one_key_per_category _ hall, rfl⟩

/-- Claim C9 counterexample: when `html_content` is absent,
`data.get('html_content')` is `None` and the f-string renders the content
region as the four-character text `None` - which is not empty. -/
theorem c9_counterexample_absent_content_renders_none :
    (assembleHtmlReport (pyFormatOptStr none) [] "d").contentRegion = "None" ∧
    "None" ≠ "" :=
  ⟨rfl, by decide⟩

/-- Claim C9 amended: a request to `/api/generate-pdf` without
`html_content` raises no error (the handler still returns its JSON reply
with status 200), but the content region of the output document is the
literal text `None` (Python renders the `None` value), not the empty
string. -/
theorem c9_amended_absent_content_renders_none
    (info : List (String × String)) (now : String) :
    (assembleHtmlReport (pyFormatOptStr none) info now).contentRegion = "None" ∧
    "None" ≠ "" ∧
    generatePdfEndpoint none info now
      = .reply { status := 200, contentType := "application/json",
                 dispositionHeader := none,
                 body := .jsonBody (.obj [("html_report",
                   .str (renderReport (assembleHtmlReport "None" info now)))]) } :=
  ⟨rfl, by decide, rfl⟩

/-- Claim C10: a parsed response with the three required fields of the
required container shapes plus any additional top-level key passes
validation in `/api/generate-recommendations`, and the returned payload is
the parsed value itself - so the extra key is neither rejected nor stripped
and is present unchanged in the reply body. -/
theorem c10_extra_keys_preserved (v : JsonValue) (k : String)
    (hshape : specRecommendationSetShape v = true)
    (hk : v.hasKey k = true) (_hnotreq : k ∉ requiredKeys) :
    generateRecommendationsReply (some v) = jsonOkReply v ∧
    (jsonOkReply v).body = .jsonBody v ∧
    v.hasKey k = true := by
  have hok : validateStructure v = .ok () := (validateStructure_ok_iff v).mpr hshape
  exact ⟨by simp [generateRecommendationsReply, responseValidator, hok], rfl, hk⟩

theorem c10_extra_keys_preserved_witness :
    (specRecommendationSetShape extraKeyExample = true ∧
     extraKeyExample.hasKey "notes" = true ∧
     "notes" ∉ requiredKeys) ∧
    generateRecommendationsReply (some extraKeyExample)
      = jsonOkReply extraKeyExample :=
  ⟨⟨by decide, by decide, by decide⟩,
   (c10_extra_keys_preserved extraKeyExample "notes"
     (by decide) (by decide) (by decide)).1⟩

theorem c6_amended_generate_pdf_returns_json_witness :
    generatePdfEndpoint (some "<p>x</p>") [] "June 02, 2025"
      = .reply { status := 200, contentType := "application/json",
                 dispositionHeader := none,
                 body := .jsonBody (.obj [("html_report",
                   .str (renderReport (assembleHtmlReport "<p>x</p>" []
                     "June 02, 2025")))]) } :=
  (c6_amended_generate_pdf_returns_json (some "<p>x</p>") [] "June 02, 2025").1

theorem c9_amended_absent_content_renders_none_witness :
    (assembleHtmlReport (pyFormatOptStr none) [("programName", "CS")]
      "July 03, 2025").contentRegion = "None" :=
  (c9_amended_absent_content_renders_none [("programName", "CS")] "July 03, 2025").1
